import Mathlib

/-!
Verification of the user-creation saga orchestrator
(`src/lib/state-machine-stack.ts`, construct `SampleStateMachine`).

The Step Functions state machine is shallowly embedded: each `CallAwsService`
task becomes a Lean function on an explicit system state (DynamoDB table,
Cognito user pool, and the execution's JSON document), and the chain/catch
wiring of `buildStateMachine` becomes an explicit transition structure driven
by a fuelled executor.

DynamoDB `N`-typed attribute values travel through the state document as
decimal strings (the tasks pass them with `"N.$"` JSON paths), so we first
prove the decimal round-trip `(Nat.repr n).toNat? = some n` used by the
numeric parsing in the embedded store operations.
-/

/-! ## Decimal round-trip: `String.toNat?` inverts `Nat.repr` -/

/-- Big-endian decimal digit characters of `n`, by structural division. -/
def decDigits (n : Nat) : List Char :=
  if _h : n < 10 then [Nat.digitChar n]
  else decDigits (n / 10) ++ [Nat.digitChar (n % 10)]
decreasing_by
  exact Nat.div_lt_self (by omega) (by omega)

theorem decDigits_small (n : Nat) (h : n < 10) : decDigits n = [Nat.digitChar n] := by
  rw [decDigits]
  simp [h]

theorem decDigits_large (n : Nat) (h : ¬ n < 10) :
    decDigits n = decDigits (n / 10) ++ [Nat.digitChar (n % 10)] := by
  rw [decDigits]
  simp [h]

theorem decDigits_ne_nil (n : Nat) : decDigits n ≠ [] := by
  by_cases h : n < 10
  · rw [decDigits_small n h]
    simp
  · rw [decDigits_large n h]
    simp

theorem digitChar_isDigit : ∀ k, k < 10 → (Nat.digitChar k).isDigit = true := by decide

theorem digitChar_toNat : ∀ k, k < 10 → (Nat.digitChar k).toNat = k + 48 := by decide

theorem decDigits_all_isDigit (n : Nat) : ∀ c ∈ decDigits n, c.isDigit = true := by
  induction n using Nat.strong_induction_on with
  | _ n ih =>
    by_cases h : n < 10
    · rw [decDigits_small n h]
      intro c hc
      simp at hc
      subst hc
      exact digitChar_isDigit n h
    · rw [decDigits_large n h]
      intro c hc
      rw [List.mem_append] at hc
      rcases hc with hc | hc
      · exact ih (n / 10) (Nat.div_lt_self (by omega) (by omega)) c hc
      · simp at hc
        subst hc
        exact digitChar_isDigit (n % 10) (Nat.mod_lt _ (by omega))

/-- Folding the decimal evaluation step over the digits of `n` recovers `n`. -/
theorem decDigits_foldl (n : Nat) :
    (decDigits n).foldl (fun m c => m * 10 + (c.toNat - '0'.toNat)) 0 = n := by
  induction n using Nat.strong_induction_on with
  | _ n ih =>
    by_cases h : n < 10
    · rw [decDigits_small n h]
      simp [digitChar_toNat n h]
    · rw [decDigits_large n h, List.foldl_append]
      rw [ih (n / 10) (Nat.div_lt_self (by omega) (by omega))]
      have h0 : '0'.toNat = 48 := rfl
      simp only [List.foldl_cons, List.foldl_nil,
        digitChar_toNat (n % 10) (Nat.mod_lt _ (by omega)), h0]
      omega

theorem toDigitsCore_succ (fuel n : Nat) (ds : List Char) :
    Nat.toDigitsCore 10 (fuel + 1) n ds =
      if n / 10 = 0 then Nat.digitChar (n % 10) :: ds
      else Nat.toDigitsCore 10 fuel (n / 10) (Nat.digitChar (n % 10) :: ds) := rfl

/-- With sufficient fuel `Nat.toDigitsCore` agrees with `decDigits`. -/
theorem toDigitsCore_eq_decDigits :
    ∀ fuel n ds, n < 10 ^ (fuel + 1) →
      Nat.toDigitsCore 10 (fuel + 1) n ds = decDigits n ++ ds := by
  intro fuel
  induction fuel with
  | zero =>
    intro n ds h
    simp only [zero_add, pow_one] at h
    have hd : n / 10 = 0 := Nat.div_eq_of_lt h
    rw [toDigitsCore_succ, if_pos hd, Nat.mod_eq_of_lt h, decDigits_small n h]
    rfl
  | succ fuel ihf =>
    intro n ds h
    rw [toDigitsCore_succ]
    by_cases hd : n / 10 = 0
    · have hn : n < 10 := by omega
      rw [if_pos hd, Nat.mod_eq_of_lt hn, decDigits_small n hn]
      rfl
    · rw [if_neg hd]
      have hlt : n / 10 < 10 ^ (fuel + 1) := by
        have h10 : (10:Nat) ^ (fuel + 1 + 1) = 10 * 10 ^ (fuel + 1) := by ring
        rw [h10] at h
        exact Nat.div_lt_of_lt_mul h
      rw [ihf (n / 10) (Nat.digitChar (n % 10) :: ds) hlt]
      have hn10 : ¬ n < 10 := by
        intro hc
        exact hd (Nat.div_eq_of_lt hc)
      rw [decDigits_large n hn10]
      simp

theorem toDigits_eq_decDigits (n : Nat) : Nat.toDigits 10 n = decDigits n := by
  unfold Nat.toDigits
  have hfuel : n < 10 ^ (n + 1) := by
    calc n < 2 ^ n := Nat.lt_two_pow n
    _ ≤ 10 ^ n := Nat.pow_le_pow_left (by omega) n
    _ ≤ 10 ^ (n + 1) := Nat.pow_le_pow_right (by omega) (by omega)
  rw [toDigitsCore_eq_decDigits n n [] hfuel, List.append_nil]

theorem repr_data (n : Nat) : (Nat.repr n).data = decDigits n := by
  show (List.asString (Nat.toDigits 10 n)).data = decDigits n
  rw [toDigits_eq_decDigits]
  rfl

/-- The decimal string produced by `Nat.repr` parses back to `n`. -/
theorem toNat?_repr (n : Nat) : (Nat.repr n).toNat? = some n := by
  have hnat : (Nat.repr n).isNat = true := by
    unfold String.isNat
    rw [Bool.and_eq_true, String.all_eq]
    constructor
    · rw [Bool.not_eq_true', ← Bool.not_eq_true]
      intro he
      rw [String.isEmpty_iff] at he
      have : (Nat.repr n).data = [] := by rw [he]
      rw [repr_data] at this
      exact decDigits_ne_nil n this
    · rw [List.all_eq_true]
      intro c hc
      rw [repr_data] at hc
      exact decDigits_all_isDigit n c hc
  unfold String.toNat?
  rw [hnat, if_pos rfl, String.foldl_eq, repr_data, decDigits_foldl]

theorem repr_injective {m n : Nat} (h : Nat.repr m = Nat.repr n) : m = n := by
  have hm := toNat?_repr m
  rw [h, toNat?_repr n] at hm
  exact (Option.some.injEq _ _ ▸ hm).symm

/-! ## Data model

The `SampleUsers` table is a single-table design: the counter item lives at
`PK = SK = "USERMETADATA"` with numeric attribute `LastId`; profile items live
at `PK = SK = "USERPROFILE#" ++ userId`.  The workflow document is the
execution's JSON state: caller input at the top level, the allocator's result
at `$.context`, caught errors at `$.error`, and compensator call results at
`$.results`.  The Cognito task has no `resultPath`, so on success its API
response replaces the whole document.
-/

/-- Caller-supplied workflow input. -/
structure UserInput where
  firstName : String
  lastName : String
  emailAddress : String
  phoneNumber : String
deriving DecidableEq, Repr

/-- A profile item in the table: the `S`-typed attributes written by the
`Put` element of `CreateDynamoDBUser`. -/
structure Profile where
  firstName : String
  lastName : String
  emailAddress : String
  phoneNumber : String
deriving DecidableEq, Repr

/-- The allocator's result placed at `$.context` by `FindLastId`:
both fields are decimal strings (`N`-typed attribute values travel as
strings through the document). -/
structure SeqContext where
  previousUserId : String
  userId : String
deriving DecidableEq, Repr

/-- Fault classes observable by the orchestrator.  The first three are the
service faults named in the two `addCatch` calls; `statesRuntime` stands for
a JSON-path resolution failure, `validationErr` for a non-numeric `N` value,
and `statesTimeout` for the platform's execution time-out. -/
inductive Fault where
  | conditionalCheckFailed
  | transactionCanceled
  | usernameExists
  | statesRuntime
  | validationErr
  | statesTimeout
deriving DecidableEq, Repr, Fintype

/-- A Cognito account: username plus the two user attributes set by
`AdminCreateUser`.  `emailVerified` holds the literal attribute value. -/
structure CognitoAccount where
  username : String
  email : String
  emailVerified : String
deriving DecidableEq, Repr

/-- The execution document.  `saga` is the shape maintained by the tasks with
an explicit `resultPath`; `cognitoResult` is the document after the Cognito
task succeeded (no `resultPath`: the API response replaces the state). -/
inductive StateDoc where
  | saga (input : UserInput) (context : Option SeqContext)
      (error : Option Fault) (results : Option Unit)
  | cognitoResult (user : CognitoAccount)
deriving DecidableEq, Repr

/-- The `SampleUsers` DynamoDB table. -/
structure Table where
  lastId : Option Nat
  profiles : String → Option Profile

/-- Full system state: table, user pool, and the execution document. -/
structure Sys where
  table : Table
  cognito : String → Option CognitoAccount
  doc : StateDoc

/-- The profile item key `USERPROFILE#` followed by the user id, as formatted
by `States.Format` in the task parameters. -/
def profileKey (uid : String) : String := "USERPROFILE#" ++ uid

/-- The context member of a document, as resolved by `$.context`. -/
def StateDoc.ctx : StateDoc → Option SeqContext
  | .saga _ c _ _ => c
  | .cognitoResult _ => none

/-- The top-level caller input of a document. -/
def StateDoc.callerInput : StateDoc → Option UserInput
  | .saga i _ _ _ => some i
  | .cognitoResult _ => none

/-! ## Task semantics

One Lean function per `CallAwsService` task of `SampleStateMachine`,
each a deterministic transformer `Sys → Except Fault Sys`. -/

/-- Task `FindLastId`: strongly-consistent `getItem` on the `USERMETADATA` key;
`resultSelector` copies `$.Item.LastId.N` to `previousUserId` and formats
`States.MathAdd(States.StringToJson($.Item.LastId.N), 1)` as `userId`;
`resultPath` `$.context` stores the pair, keeping the rest of the document. -/
def findLastId (s : Sys) : Except Fault Sys :=
  match s.table.lastId with
  | none => .error .statesRuntime
  | some n =>
    let lastIdN := Nat.repr n
    match lastIdN.toNat? with
    | none => .error .statesRuntime
    | some v =>
      match s.doc with
      | .saga i _c e r =>
        .ok { s with doc := .saga i (some ⟨lastIdN, Nat.repr (v + 1)⟩) e r }
      | .cognitoResult _ => .error .statesRuntime

/-- Task `CreateDynamoDBUser`: one `transactWriteItems` holding (a) a `Put` of the
profile item keyed `USERPROFILE#userId` conditioned on
`attribute_not_exists(PK)` and (b) an `Update` of `USERMETADATA` setting
`LastId` to `userId` conditioned on `LastId = previousUserId`; both succeed
or the transaction is cancelled as a whole.  `resultPath` is `DISCARD`, so
the document is unchanged on success. -/
def createDynamoDBUser (s : Sys) : Except Fault Sys :=
  match s.doc.ctx, s.doc.callerInput with
  | some c, some i =>
    match c.previousUserId.toNat?, c.userId.toNat? with
    | some prev, some uid =>
      if s.table.profiles (profileKey c.userId) = none ∧ s.table.lastId = some prev then
        .ok { s with table :=
          { lastId := some uid,
            profiles := fun k =>
              if k = profileKey c.userId then
                some ⟨i.firstName, i.lastName, i.emailAddress, i.phoneNumber⟩
              else s.table.profiles k } }
      else .error .transactionCanceled
    | _, _ => .error .validationErr
  | _, _ => .error .statesRuntime

/-- Task `CorrectLastId`: a single conditional `updateItem` on the `USERMETADATA`
key, `SET LastId = :newUserId` guarded by `LastId = :previousUserId`;
the call result goes to `$.results`. -/
def correctLastId (s : Sys) : Except Fault Sys :=
  match s.doc with
  | .saga i c e _r =>
    match c with
    | some sc =>
      match sc.previousUserId.toNat?, sc.userId.toNat? with
      | some prev, some uid =>
        if s.table.lastId = some prev then
          .ok { s with table := { s.table with lastId := some uid },
                       doc := .saga i c e (some ()) }
        else .error .conditionalCheckFailed
      | _, _ => .error .validationErr
    | none => .error .statesRuntime
  | .cognitoResult _ => .error .statesRuntime

/-- Task `RollbackUser`: `deleteItem` of the profile item keyed
`USERPROFILE#userId`; the call result goes to `$.results`.  A delete of an
absent key is still `Ok`. -/
def rollbackUser (s : Sys) : Except Fault Sys :=
  match s.doc with
  | .saga i c e _r =>
    match c with
    | some sc =>
      .ok { s with table := { s.table with profiles := fun k =>
              if (k = profileKey sc.userId) then none else s.table.profiles k },
                   doc := .saga i c e (some ()) }
    | none => .error .statesRuntime
  | .cognitoResult _ => .error .statesRuntime

/-- Task `CreateCognitoUser`: `adminCreateUser` with `Username` from
`$.context.userId` and user attributes `email` from `$.emailAddress` and
`email_verified` fixed to the literal `true`.  Cognito rejects an existing
username with `UsernameExistsException`.  The task has no `resultPath`, so
the response (the created user) replaces the document. -/
def createCognitoUser (s : Sys) : Except Fault Sys :=
  match s.doc.ctx, s.doc.callerInput with
  | some c, some i =>
    match s.cognito c.userId with
    | some _ => .error .usernameExists
    | none =>
      let account : CognitoAccount := ⟨c.userId, i.emailAddress, "true"⟩
      .ok { s with
        cognito := fun u => if u = c.userId then some account else s.cognito u,
        doc := .cognitoResult account }
  | _, _ => .error .statesRuntime

/-! ## Saga executor

The chain and catch wiring of `buildStateMachine`:
`findLastId.next(createDbUser).next(createCognitoUser).next(pass)`,
`correctLastId.next(findLastId)`, `rollbackUser.next(fail)`, a catch on
`createDbUser` for the two DynamoDB faults routing to `correctLastId`, and a
catch on `createCognitoUser` for `UsernameExistsException` routing to
`rollbackUser`; both catches store the caught error at `$.error`. -/

/-- The states of the `UserCreation` state machine. -/
inductive Node where
  | findLastId
  | createDynamoDBUser
  | createCognitoUser
  | correctLastId
  | rollbackUser
  | passNode
  | failNode
deriving DecidableEq, Repr, Fintype

/-- The `.next` chain of `buildStateMachine`. -/
def nextNode : Node → Option Node
  | .findLastId => some .createDynamoDBUser
  | .createDynamoDBUser => some .createCognitoUser
  | .createCognitoUser => some .passNode
  | .correctLastId => some .findLastId
  | .rollbackUser => some .failNode
  | .passNode => none
  | .failNode => none

/-- The two `addCatch` routes: which fault at which state is caught, and
where control goes.  `DynamoDB.ConditionalCheckFailedException` and
`DynamoDb.TransactionCanceledException` at `CreateDynamoDBUser` route to
`CorrectLastId`; `CognitoIdentityProvider.UsernameExistsException` at
`CreateCognitoUser` routes to `RollbackUser`.  Nothing else is caught. -/
def catchTarget : Node → Fault → Option Node
  | .createDynamoDBUser, .conditionalCheckFailed => some .correctLastId
  | .createDynamoDBUser, .transactionCanceled => some .correctLastId
  | .createCognitoUser, .usernameExists => some .rollbackUser
  | _, _ => none

/-- Catch semantics of `resultPath: "$.error"`: the caught fault is stored at
the `error` member of the state's input document, everything else kept. -/
def applyCatch (s : Sys) (f : Fault) : Sys :=
  match s.doc with
  | .saga i c _e r => { s with doc := .saga i c (some f) r }
  | .cognitoResult u => { s with doc := .cognitoResult u }

/-- Dispatch of the five task states; `passNode` and `failNode` are not
tasks and are handled by the executor directly. -/
def stepAt : Node → Sys → Except Fault Sys
  | .findLastId, s => findLastId s
  | .createDynamoDBUser, s => createDynamoDBUser s
  | .createCognitoUser, s => createCognitoUser s
  | .correctLastId, s => correctLastId s
  | .rollbackUser, s => rollbackUser s
  | .passNode, s => .ok s
  | .failNode, s => .ok s

/-- How a run ends: at the `Pass` terminal, at the `Fail` terminal, with an
uncaught fault, or by exhausting the execution window (the machine is
`EXPRESS`, so a run that never terminates is cut off by the platform). -/
inductive RunRes where
  | succeeded
  | failedState
  | fatal (f : Fault)
  | outOfFuel
deriving DecidableEq, Repr

/-- The executor: from a node, run the task, follow the `.next` chain on
success, follow a matching catch on a caught fault, abort on an uncaught
fault, and stop at the two terminals. -/
def run : Nat → Node → Sys → RunRes × Sys
  | 0, _, s => (.outOfFuel, s)
  | _fuel + 1, .passNode, s => (.succeeded, s)
  | _fuel + 1, .failNode, s => (.failedState, s)
  | fuel + 1, node, s =>
    match stepAt node s with
    | .ok s' =>
      match nextNode node with
      | some m => run fuel m s'
      | none => (.succeeded, s')
    | .error f =>
      match catchTarget node f with
      | some m => run fuel m (applyCatch s f)
      | none => (.fatal f, s)

/-- The document at invocation start: caller input at the top level, no
context, no error, no results. -/
def initialDoc (i : UserInput) : StateDoc := .saga i none none none

/-- The caller-observable outcome of an execution. -/
inductive Outcome where
  | success (output : StateDoc)
  | failure (reason : Option Fault)
deriving DecidableEq, Repr

/-- What the caller observes: the final document on the `Pass` terminal, a
reasonless failure on the bare `Fail` state, the uncaught fault otherwise,
and a time-out fault when the execution window is exhausted. -/
def observe : RunRes × Sys → Outcome
  | (.succeeded, s) => .success s.doc
  | (.failedState, _) => .failure none
  | (.fatal f, _) => .failure (some f)
  | (.outOfFuel, _) => .failure (some .statesTimeout)

/-! ## Task parameters as data

Structural content of the builders, for the claims that compare parameter
trees rather than behaviour. -/

/-- The `Key`, `ConditionExpression`, `UpdateExpression` and the two
JSON paths feeding `ExpressionAttributeValues` of a conditional counter
update. -/
structure CounterUpdate where
  keyPK : String
  keySK : String
  conditionExpr : String
  updateExpr : String
  prevValuePath : String
  newValuePath : String
deriving DecidableEq, Repr

/-- The `updateItem` parameters of `buildCorrectLastId`. -/
def correctLastIdUpdate : CounterUpdate :=
  { keyPK := "USERMETADATA"
    keySK := "USERMETADATA"
    conditionExpr := "LastId = :previousUserId"
    updateExpr := "SET LastId = :newUserId"
    prevValuePath := "$.context.previousUserId"
    newValuePath := "$.context.userId" }

/-- The `Update` element inside the `TransactItems` of
`buildCreateDynamoDBUser`. -/
def createDynamoDBUserUpdate : CounterUpdate :=
  { keyPK := "USERMETADATA"
    keySK := "USERMETADATA"
    conditionExpr := "LastId = :previousUserId"
    updateExpr := "SET LastId = :newUserId"
    prevValuePath := "$.context.previousUserId"
    newValuePath := "$.context.userId" }

/-- An `addCatch` configuration: the caught error names and the result path
the error object is stored at. -/
structure CatchConfig where
  errors : List String
  resultPath : String
deriving DecidableEq, Repr

/-- The catch added to `createCognitoUser` in `buildStateMachine`. -/
def createCognitoUserCatch : CatchConfig :=
  { errors := ["CognitoIdentityProvider.UsernameExistsException"]
    resultPath := "$.error" }

/-- The catch added to `createDbUser` in `buildStateMachine`. -/
def createDynamoDBUserCatch : CatchConfig :=
  { errors := ["DynamoDB.ConditionalCheckFailedException",
               "DynamoDb.TransactionCanceledException"]
    resultPath := "$.error" }

/-- The `getItem` parameters of `buildFindLastId`. -/
structure GetItemCall where
  keyPK : String
  keySK : String
  consistentRead : Bool
  resultPath : String
deriving DecidableEq, Repr

/-- The read issued by `FindLastId`. -/
def findLastIdCall : GetItemCall :=
  { keyPK := "USERMETADATA"
    keySK := "USERMETADATA"
    consistentRead := true
    resultPath := "$.context" }

/-- The `adminCreateUser` parameters of `buildCreateCognitoUser`: where the
username and the email attribute come from, and the literal value of the
`email_verified` attribute. -/
structure AdminCreateUserCall where
  usernamePath : String
  emailValuePath : String
  emailVerifiedValue : String
deriving DecidableEq, Repr

/-- The registration call issued by `CreateCognitoUser`. -/
def createCognitoUserCall : AdminCreateUserCall :=
  { usernamePath := "$.context.userId"
    emailValuePath := "$.emailAddress"
    emailVerifiedValue := "true" }

/-! ## Characterization lemmas for the steps and the executor -/

/-- The context produced by a `FindLastId` read of counter value `p`. -/
def allocCtx (p : Nat) : SeqContext := ⟨Nat.repr p, Nat.repr (p + 1)⟩

theorem catchTarget_findLastId (f : Fault) : catchTarget .findLastId f = none := by
  cases f <;> rfl

theorem catchTarget_correctLastId (f : Fault) : catchTarget .correctLastId f = none := by
  cases f <;> rfl

theorem catchTarget_rollbackUser (f : Fault) : catchTarget .rollbackUser f = none := by
  cases f <;> rfl

theorem run_succ_findLastId (fuel : Nat) (s : Sys) :
    run (fuel + 1) .findLastId s =
      match findLastId s with
      | .ok s1 => run fuel .createDynamoDBUser s1
      | .error f =>
        match catchTarget .findLastId f with
        | some m => run fuel m (applyCatch s f)
        | none => (.fatal f, s) := rfl

theorem run_succ_createDynamoDBUser (fuel : Nat) (s : Sys) :
    run (fuel + 1) .createDynamoDBUser s =
      match createDynamoDBUser s with
      | .ok s1 => run fuel .createCognitoUser s1
      | .error f =>
        match catchTarget .createDynamoDBUser f with
        | some m => run fuel m (applyCatch s f)
        | none => (.fatal f, s) := rfl

theorem run_succ_createCognitoUser (fuel : Nat) (s : Sys) :
    run (fuel + 1) .createCognitoUser s =
      match createCognitoUser s with
      | .ok s1 => run fuel .passNode s1
      | .error f =>
        match catchTarget .createCognitoUser f with
        | some m => run fuel m (applyCatch s f)
        | none => (.fatal f, s) := rfl

theorem run_succ_correctLastId (fuel : Nat) (s : Sys) :
    run (fuel + 1) .correctLastId s =
      match correctLastId s with
      | .ok s1 => run fuel .findLastId s1
      | .error f =>
        match catchTarget .correctLastId f with
        | some m => run fuel m (applyCatch s f)
        | none => (.fatal f, s) := rfl

theorem run_succ_rollbackUser (fuel : Nat) (s : Sys) :
    run (fuel + 1) .rollbackUser s =
      match rollbackUser s with
      | .ok s1 => run fuel .failNode s1
      | .error f =>
        match catchTarget .rollbackUser f with
        | some m => run fuel m (applyCatch s f)
        | none => (.fatal f, s) := rfl

theorem run_succ_passNode (fuel : Nat) (s : Sys) :
    run (fuel + 1) .passNode s = (.succeeded, s) := rfl

theorem run_succ_failNode (fuel : Nat) (s : Sys) :
    run (fuel + 1) .failNode s = (.failedState, s) := rfl

theorem findLastId_ok (s : Sys) (i : UserInput) (c : Option SeqContext)
    (e : Option Fault) (r : Option Unit) (n : Nat)
    (hd : s.doc = .saga i c e r) (hn : s.table.lastId = some n) :
    findLastId s = .ok { s with doc := .saga i (some (allocCtx n)) e r } := by
  simp [findLastId, hd, hn, toNat?_repr, allocCtx]

theorem findLastId_noCounter (s : Sys) (hn : s.table.lastId = none) :
    findLastId s = .error .statesRuntime := by
  simp [findLastId, hn]

theorem findLastId_cognitoDoc (s : Sys) (u : CognitoAccount)
    (hd : s.doc = .cognitoResult u) :
    findLastId s = .error .statesRuntime := by
  cases hn : s.table.lastId with
  | none => simp [findLastId, hn]
  | some n => simp [findLastId, hn, hd, toNat?_repr]

theorem createDynamoDBUser_ok (s : Sys) (i : UserInput) (p : Nat)
    (e : Option Fault) (r : Option Unit)
    (hd : s.doc = .saga i (some (allocCtx p)) e r)
    (hfree : s.table.profiles (profileKey (Nat.repr (p + 1))) = none)
    (hcas : s.table.lastId = some p) :
    createDynamoDBUser s = .ok { s with table :=
      { lastId := some (p + 1),
        profiles := fun k =>
          if k = profileKey (Nat.repr (p + 1)) then
            some ⟨i.firstName, i.lastName, i.emailAddress, i.phoneNumber⟩
          else s.table.profiles k } } := by
  simp [createDynamoDBUser, hd, StateDoc.ctx, StateDoc.callerInput, allocCtx,
    toNat?_repr, hfree, hcas]

theorem createDynamoDBUser_conflict (s : Sys) (i : UserInput) (p : Nat)
    (e : Option Fault) (r : Option Unit)
    (hd : s.doc = .saga i (some (allocCtx p)) e r)
    (hcond : ¬ (s.table.profiles (profileKey (Nat.repr (p + 1))) = none ∧
      s.table.lastId = some p)) :
    createDynamoDBUser s = .error .transactionCanceled := by
  simp only [createDynamoDBUser, hd, StateDoc.ctx, StateDoc.callerInput, allocCtx,
    toNat?_repr]
  rw [if_neg hcond]

theorem correctLastId_ok (s : Sys) (i : UserInput) (sc : SeqContext)
    (e : Option Fault) (r : Option Unit) (prev uid : Nat)
    (hd : s.doc = .saga i (some sc) e r)
    (hprev : sc.previousUserId.toNat? = some prev)
    (huid : sc.userId.toNat? = some uid)
    (hcas : s.table.lastId = some prev) :
    correctLastId s = .ok { s with
      table := { s.table with lastId := some uid },
      doc := .saga i (some sc) e (some ()) } := by
  simp [correctLastId, hd, hprev, huid, hcas]

theorem correctLastId_conditionFailed (s : Sys) (i : UserInput) (sc : SeqContext)
    (e : Option Fault) (r : Option Unit) (prev uid : Nat)
    (hd : s.doc = .saga i (some sc) e r)
    (hprev : sc.previousUserId.toNat? = some prev)
    (huid : sc.userId.toNat? = some uid)
    (hcas : s.table.lastId ≠ some prev) :
    correctLastId s = .error .conditionalCheckFailed := by
  simp [correctLastId, hd, hprev, huid, hcas]

theorem rollbackUser_ok (s : Sys) (i : UserInput) (sc : SeqContext)
    (e : Option Fault) (r : Option Unit)
    (hd : s.doc = .saga i (some sc) e r) :
    rollbackUser s = .ok { s with
      table := { s.table with profiles := fun k =>
        if (k = profileKey sc.userId) then none else s.table.profiles k },
      doc := .saga i (some sc) e (some ()) } := by
  simp [rollbackUser, hd]

theorem createCognitoUser_ok (s : Sys) (i : UserInput) (sc : SeqContext)
    (e : Option Fault) (r : Option Unit)
    (hd : s.doc = .saga i (some sc) e r)
    (hfree : s.cognito sc.userId = none) :
    createCognitoUser s = .ok { s with
      cognito := fun u => if u = sc.userId then
          some ⟨sc.userId, i.emailAddress, "true"⟩ else s.cognito u,
      doc := .cognitoResult ⟨sc.userId, i.emailAddress, "true"⟩ } := by
  simp [createCognitoUser, hd, StateDoc.ctx, StateDoc.callerInput, hfree]

theorem createCognitoUser_exists (s : Sys) (i : UserInput) (sc : SeqContext)
    (e : Option Fault) (r : Option Unit) (a : CognitoAccount)
    (hd : s.doc = .saga i (some sc) e r)
    (htaken : s.cognito sc.userId = some a) :
    createCognitoUser s = .error .usernameExists := by
  simp [createCognitoUser, hd, StateDoc.ctx, StateDoc.callerInput, htaken]

theorem applyCatch_saga (s : Sys) (i : UserInput) (c : Option SeqContext)
    (e : Option Fault) (r : Option Unit) (f : Fault)
    (hd : s.doc = .saga i c e r) :
    applyCatch s f = { s with doc := .saga i c (some f) r } := by
  simp [applyCatch, hd]

/-! ## Success invariant of the executor -/

/-- What holds of the final system after every execution that ends at the
`Pass` terminal: the output document is the Cognito response, its username is
the decimal form of the final counter value, the profile item for that
username is present, and the Cognito account exists under that username. -/
def sagaPost (s : Sys) : Prop :=
  ∃ a p pr, s.doc = .cognitoResult a ∧ a.username = Nat.repr (p + 1) ∧
    s.table.lastId = some (p + 1) ∧
    s.table.profiles (profileKey a.username) = some pr ∧
    s.cognito a.username = some a

/-- Entry conditions per node along any execution from the initial node,
strong enough to push the success postcondition through the step graph. -/
def nodePre : Node → Sys → Prop
  | .createDynamoDBUser, s => ∃ i p e r, s.doc = .saga i (some (allocCtx p)) e r
  | .createCognitoUser, s => ∃ i p e r, s.doc = .saga i (some (allocCtx p)) e r ∧
      s.table.lastId = some (p + 1) ∧
      ∃ pr, s.table.profiles (profileKey (Nat.repr (p + 1))) = some pr
  | .correctLastId, s => ∃ i p e r, s.doc = .saga i (some (allocCtx p)) e r
  | .passNode, s => sagaPost s
  | _, _ => True

/-- Every execution ending at the `Pass` terminal satisfies `sagaPost`. -/
theorem run_succeeded_post (fuel : Nat) :
    ∀ node s s', nodePre node s → run fuel node s = (.succeeded, s') →
      sagaPost s' := by
  induction fuel with
  | zero =>
    intro node s s' _ h
    have h0 : run 0 node s = (.outOfFuel, s) := rfl
    rw [h0] at h
    simp at h
  | succ fuel ih =>
    intro node s s' pre h
    cases node with
    | passNode =>
      rw [run_succ_passNode] at h
      have hs : s = s' := congrArg Prod.snd h
      subst hs
      exact pre
    | failNode =>
      rw [run_succ_failNode] at h
      simp at h
    | findLastId =>
      rw [run_succ_findLastId] at h
      cases hn : s.table.lastId with
      | none =>
        rw [findLastId_noCounter s hn] at h
        simp [catchTarget] at h
      | some n =>
        cases hd : s.doc with
        | cognitoResult u =>
          rw [findLastId_cognitoDoc s u hd] at h
          simp [catchTarget] at h
        | saga i c e r =>
          rw [findLastId_ok s i c e r n hd hn] at h
          exact ih .createDynamoDBUser _ s' ⟨i, n, e, r, rfl⟩ h
    | createDynamoDBUser =>
      obtain ⟨i, p, e, r, hd⟩ := pre
      rw [run_succ_createDynamoDBUser] at h
      by_cases hc : s.table.profiles (profileKey (Nat.repr (p + 1))) = none ∧
          s.table.lastId = some p
      · rw [createDynamoDBUser_ok s i p e r hd hc.1 hc.2] at h
        have hpre : nodePre .createCognitoUser { s with table :=
            { lastId := some (p + 1),
              profiles := fun k =>
                if k = profileKey (Nat.repr (p + 1)) then
                  some ⟨i.firstName, i.lastName, i.emailAddress, i.phoneNumber⟩
                else s.table.profiles k } } :=
          ⟨i, p, e, r, hd, rfl,
            ⟨⟨i.firstName, i.lastName, i.emailAddress, i.phoneNumber⟩, by simp⟩⟩
        exact ih .createCognitoUser _ s' hpre h
      · rw [createDynamoDBUser_conflict s i p e r hd hc] at h
        refine ih .correctLastId _ s' ⟨i, p, some .transactionCanceled, r, ?_⟩ h
        rw [applyCatch_saga s i (some (allocCtx p)) e r .transactionCanceled hd]
    | correctLastId =>
      obtain ⟨i, p, e, r, hd⟩ := pre
      rw [run_succ_correctLastId] at h
      by_cases hcas : s.table.lastId = some p
      · rw [correctLastId_ok s i (allocCtx p) e r p (p + 1) hd
          (toNat?_repr p) (toNat?_repr (p + 1)) hcas] at h
        exact ih .findLastId _ s' trivial h
      · rw [correctLastId_conditionFailed s i (allocCtx p) e r p (p + 1) hd
          (toNat?_repr p) (toNat?_repr (p + 1)) hcas] at h
        simp [catchTarget] at h
    | createCognitoUser =>
      obtain ⟨i, p, e, r, hd, hlast, pr, hpr⟩ := pre
      rw [run_succ_createCognitoUser] at h
      cases hcg : s.cognito (allocCtx p).userId with
      | some a =>
        rw [createCognitoUser_exists s i (allocCtx p) e r a hd hcg] at h
        exact ih .rollbackUser _ s' trivial h
      | none =>
        rw [createCognitoUser_ok s i (allocCtx p) e r hd hcg] at h
        refine ih .passNode _ s' ?_ h
        exact ⟨⟨(allocCtx p).userId, i.emailAddress, "true"⟩, p, pr, rfl, rfl,
          hlast, hpr, by simp⟩
    | rollbackUser =>
      rw [run_succ_rollbackUser] at h
      cases hstep : rollbackUser s with
      | ok s1 =>
        rw [hstep] at h
        exact ih .failNode _ s' trivial h
      | error f =>
        rw [hstep] at h
        simp [catchTarget_rollbackUser] at h

/-! ## Concrete fixtures for witnesses and counterexamples -/

/-- A sample caller input. -/
def sampleInput : UserInput :=
  ⟨"Ada", "Lovelace", "ada.example.com", "5550100"⟩

/-- The profile item written for `sampleInput`. -/
def adaProfile : Profile :=
  ⟨"Ada", "Lovelace", "ada.example.com", "5550100"⟩

/-- A fresh system: counter at 41, no profiles, no Cognito users, context
already allocated from 41. -/
def sampleSys : Sys :=
  { table := { lastId := some 41, profiles := fun _ => none },
    cognito := fun _ => none,
    doc := .saga sampleInput (some (allocCtx 41)) none none }

/-- The system after a successful profile write from `sampleSys`. -/
def writeOut : Sys :=
  { sampleSys with table :=
    { lastId := some 42,
      profiles := fun k =>
        (if (k = profileKey (Nat.repr 42)) then some adaProfile
         else sampleSys.table.profiles k) } }

/-- A system where the candidate profile key is already taken, so the
write transaction is rejected. -/
def conflictSys : Sys :=
  { table := { lastId := some 41, profiles := fun k =>
      (if (k = profileKey (Nat.repr 42)) then some ⟨"Bob", "B", "b", "2"⟩
       else none) },
    cognito := fun _ => none,
    doc := .saga sampleInput (some (allocCtx 41)) none none }

/-- A system whose counter has moved past the context's `previousUserId`:
the counter reads 50 while the context was allocated from 41. -/
def movedSys : Sys :=
  { table := { lastId := some 50, profiles := fun _ => none },
    cognito := fun _ => none,
    doc := .saga sampleInput (some (allocCtx 41)) none none }

/-- The Cognito account registered for user 42 from `sampleInput`. -/
def adaAccount : CognitoAccount :=
  ⟨Nat.repr 42, "ada.example.com", "true"⟩

/-- A system at the registration step whose username is already taken in
the user pool. -/
def takenSys : Sys :=
  { table := { lastId := some 42, profiles := fun k =>
      (if (k = profileKey (Nat.repr 42)) then some adaProfile else none) },
    cognito := fun u =>
      (if (u = Nat.repr 42) then some ⟨Nat.repr 42, "other.example.com", "true"⟩
       else none),
    doc := .saga sampleInput (some (allocCtx 41)) none none }

/-- The system after a successful registration from `sampleSys`. -/
def cogOut : Sys :=
  { sampleSys with
    cognito := fun u =>
      (if (u = Nat.repr 42) then some adaAccount else sampleSys.cognito u),
    doc := .cognitoResult adaAccount }

/-! ## The claims -/

/-- Claim C1: the Profile Writer issues one atomic all-or-nothing transaction
whose `Put` of the `UserProfile` item is conditioned on the key not existing
and whose `Update` of the counter is conditioned on it still equaling
`previousUserId`; on every successful write the counter advances by exactly 1
and exactly one profile item exists under the new id (the new key holds the
caller's profile, all other keys are untouched), and nothing else changes. -/
theorem createDynamoDBUser_advances_counter (s : Sys) (i : UserInput) (p : Nat)
    (e : Option Fault) (r : Option Unit) (s2 : Sys)
    (hd : s.doc = .saga i (some (allocCtx p)) e r)
    (h : createDynamoDBUser s = .ok s2) :
    s.table.lastId = some p ∧
    s.table.profiles (profileKey (Nat.repr (p + 1))) = none ∧
    s2.table.lastId = some (p + 1) ∧
    s2.table.profiles (profileKey (Nat.repr (p + 1))) =
      some ⟨i.firstName, i.lastName, i.emailAddress, i.phoneNumber⟩ ∧
    (∀ k, k ≠ profileKey (Nat.repr (p + 1)) →
      s2.table.profiles k = s.table.profiles k) ∧
    s2.doc = s.doc ∧ s2.cognito = s.cognito := by
  by_cases hc : s.table.profiles (profileKey (Nat.repr (p + 1))) = none ∧
      s.table.lastId = some p
  · rw [createDynamoDBUser_ok s i p e r hd hc.1 hc.2] at h
    injection h with h2
    subst h2
    refine ⟨hc.2, hc.1, rfl, by simp, ?_, rfl, rfl⟩
    intro k hk
    simp [hk]
  · rw [createDynamoDBUser_conflict s i p e r hd hc] at h
    cases h

/-- Witness for C1 at `sampleSys`: the write succeeds, the counter goes from
41 to 42, and the new profile item exists. -/
theorem createDynamoDBUser_advances_counter_witness :
    sampleSys.doc = .saga sampleInput (some (allocCtx 41)) none none ∧
    createDynamoDBUser sampleSys = .ok writeOut ∧
    sampleSys.table.lastId = some 41 ∧ writeOut.table.lastId = some 42 := by
  have hok : createDynamoDBUser sampleSys = .ok writeOut :=
    createDynamoDBUser_ok sampleSys sampleInput 41 none none rfl rfl rfl
  have hc := createDynamoDBUser_advances_counter sampleSys sampleInput 41
    none none writeOut rfl hok
  exact ⟨rfl, hok, hc.1, hc.2.2.1⟩

/-- Claim C3: for every stored counter value, the Sequence Allocator performs
a strongly-consistent read and produces `previousUserId` equal to the counter
and `userId` equal to counter plus one, both as decimal strings, mutating no
record (table and user pool are unchanged). -/
theorem findLastId_reads_and_allocates (s : Sys) (i : UserInput)
    (c : Option SeqContext) (e : Option Fault) (r : Option Unit) (n : Nat)
    (hd : s.doc = .saga i c e r) (hn : s.table.lastId = some n) :
    findLastId s = .ok { s with
      doc := .saga i (some ⟨Nat.repr n, Nat.repr (n + 1)⟩) e r } ∧
    findLastIdCall.consistentRead = true ∧
    (∀ s1, findLastId s = .ok s1 → s1.table = s.table ∧ s1.cognito = s.cognito) := by
  have h1 := findLastId_ok s i c e r n hd hn
  refine ⟨h1, rfl, ?_⟩
  intro s1 hs1
  rw [h1] at hs1
  injection hs1 with h2
  subst h2
  exact ⟨rfl, rfl⟩

/-- Witness for C3 at `sampleSys` (counter 41): the read yields the string
pair 41 and 42 and performs no mutation. -/
theorem findLastId_reads_and_allocates_witness :
    findLastId sampleSys = .ok { sampleSys with
      doc := .saga sampleInput (some ⟨Nat.repr 41, Nat.repr 42⟩) none none } ∧
    findLastIdCall.consistentRead = true := by
  have hc := findLastId_reads_and_allocates sampleSys sampleInput
    (some (allocCtx 41)) none none 41 rfl rfl
  exact ⟨hc.1, hc.2.1⟩

theorem catchTarget_createDynamoDBUser_other (g : Fault)
    (h1 : g ≠ .conditionalCheckFailed) (h2 : g ≠ .transactionCanceled) :
    catchTarget .createDynamoDBUser g = none := by
  cases g
  · exact absurd rfl h1
  · exact absurd rfl h2
  all_goals rfl

theorem findLastId_ok_inv (s s1 : Sys) (h : findLastId s = .ok s1) :
    ∃ i c e r n, s.doc = .saga i c e r ∧ s.table.lastId = some n ∧
      s1 = { s with doc := .saga i (some (allocCtx n)) e r } := by
  cases hn : s.table.lastId with
  | none =>
    rw [findLastId_noCounter s hn] at h
    cases h
  | some n =>
    cases hd : s.doc with
    | cognitoResult u =>
      rw [findLastId_cognitoDoc s u hd] at h
      cases h
    | saga i c e r =>
      rw [findLastId_ok s i c e r n hd hn] at h
      injection h with he
      exact ⟨i, c, e, r, n, rfl, rfl, he.symm⟩

/-- Claim C2: a profile-write failure is always one of the two caught
DynamoDB fault classes; it routes through the Counter Corrector, whose next
state is the Sequence Allocator, so any retry re-reads the counter; a
retried allocation after a successful correction hands out an id distinct
from (one past) the contested one; and any fault at the write step outside
the two caught classes aborts the saga with no compensation. -/
theorem writeConflict_compensation (s : Sys) (i : UserInput) (p : Nat)
    (e : Option Fault) (r : Option Unit) (f : Fault) (fuel : Nat)
    (hd : s.doc = .saga i (some (allocCtx p)) e r)
    (hf : createDynamoDBUser s = .error f) :
    (f = .conditionalCheckFailed ∨ f = .transactionCanceled) ∧
    catchTarget .createDynamoDBUser f = some .correctLastId ∧
    run (fuel + 1) .createDynamoDBUser s =
      run fuel .correctLastId (applyCatch s f) ∧
    nextNode .correctLastId = some .findLastId ∧
    (∀ s1 s2, correctLastId (applyCatch s f) = .ok s1 → findLastId s1 = .ok s2 →
      s2.doc.ctx = some (allocCtx (p + 1)) ∧
      (allocCtx (p + 1)).userId ≠ (allocCtx p).userId) ∧
    (∀ (s0 : Sys) (g : Fault), createDynamoDBUser s0 = .error g →
      g ≠ .conditionalCheckFailed → g ≠ .transactionCanceled →
      run (fuel + 1) .createDynamoDBUser s0 = (.fatal g, s0)) := by
  have hftx : f = .transactionCanceled := by
    by_cases hc : s.table.profiles (profileKey (Nat.repr (p + 1))) = none ∧
        s.table.lastId = some p
    · rw [createDynamoDBUser_ok s i p e r hd hc.1 hc.2] at hf
      cases hf
    · rw [createDynamoDBUser_conflict s i p e r hd hc] at hf
      injection hf with hf2
      exact hf2.symm
  subst hftx
  refine ⟨Or.inr rfl, rfl, ?_, rfl, ?_, ?_⟩
  · rw [run_succ_createDynamoDBUser, hf]
    rfl
  · intro s1 s2 h1 h2
    have hcatch : applyCatch s .transactionCanceled =
        { s with doc := .saga i (some (allocCtx p)) (some .transactionCanceled) r } :=
      applyCatch_saga s i (some (allocCtx p)) e r .transactionCanceled hd
    rw [hcatch] at h1
    by_cases hcas : s.table.lastId = some p
    · rw [correctLastId_ok
        { s with doc := .saga i (some (allocCtx p)) (some .transactionCanceled) r }
        i (allocCtx p) (some .transactionCanceled) r p (p + 1) rfl
        (toNat?_repr p) (toNat?_repr (p + 1)) hcas] at h1
      injection h1 with h1e
      obtain ⟨i2, c2, e2, r2, n2, hdoc2, hn2, hs2⟩ := findLastId_ok_inv _ s2 h2
      rw [← h1e] at hdoc2 hn2 hs2
      have hn2e : n2 = p + 1 := by
        have : some (p + 1) = some n2 := hn2
        injection this with h3
        exact h3.symm
      subst hn2e
      constructor
      · rw [hs2]
        rfl
      · intro he
        have := repr_injective he
        omega
    · rw [correctLastId_conditionFailed
        { s with doc := .saga i (some (allocCtx p)) (some .transactionCanceled) r }
        i (allocCtx p) (some .transactionCanceled) r p (p + 1) rfl
        (toNat?_repr p) (toNat?_repr (p + 1)) hcas] at h1
      cases h1
  · intro s0 g hg hg1 hg2
    rw [run_succ_createDynamoDBUser, hg]
    have hnone := catchTarget_createDynamoDBUser_other g hg1 hg2
    simp [hnone]

/-- Witness for C2 at `conflictSys` (profile key 42 already present): the
write is rejected with the transaction-cancellation fault, which is caught
and routed to the corrector, whose successor is the allocator. -/
theorem writeConflict_compensation_witness :
    createDynamoDBUser conflictSys = .error .transactionCanceled ∧
    catchTarget .createDynamoDBUser .transactionCanceled = some .correctLastId ∧
    run 3 .createDynamoDBUser conflictSys =
      run 2 .correctLastId (applyCatch conflictSys .transactionCanceled) ∧
    nextNode .correctLastId = some .findLastId := by
  have hf : createDynamoDBUser conflictSys = .error .transactionCanceled := by
    apply createDynamoDBUser_conflict conflictSys sampleInput 41 none none rfl
    simp [conflictSys, profileKey]
  have hc := writeConflict_compensation conflictSys sampleInput 41 none none
    .transactionCanceled 2 rfl hf
  exact ⟨hf, hc.2.1, hc.2.2.1, hc.2.2.2.1⟩

/-- Claim C4: when registration fails with the username-exists fault, the
saga deletes the profile item keyed by the run's `userId` and stops at the
`Fail` terminal without any retry; the counter is left untouched (the
allocated id stays consumed), as is the user pool.  The final system is given
explicitly: only the profile item is removed and the error recorded. -/
theorem duplicateIdentity_rollback (s : Sys) (i : UserInput) (sc : SeqContext)
    (e : Option Fault) (r : Option Unit) (a : CognitoAccount) (fuel : Nat)
    (hd : s.doc = .saga i (some sc) e r)
    (htaken : s.cognito sc.userId = some a) :
    run (fuel + 1 + 1 + 1) .createCognitoUser s = (.failedState, { s with
      table := { s.table with profiles := fun k =>
        (if (k = profileKey sc.userId) then none else s.table.profiles k) },
      doc := .saga i (some sc) (some .usernameExists) (some ()) }) ∧
    observe (run (fuel + 1 + 1 + 1) .createCognitoUser s) = .failure none ∧
    (run (fuel + 1 + 1 + 1) .createCognitoUser s).2.table.lastId =
      s.table.lastId ∧
    (run (fuel + 1 + 1 + 1) .createCognitoUser s).2.table.profiles
      (profileKey sc.userId) = none ∧
    (run (fuel + 1 + 1 + 1) .createCognitoUser s).2.cognito = s.cognito := by
  have st1 : createCognitoUser s = .error .usernameExists :=
    createCognitoUser_exists s i sc e r a hd htaken
  have st2 : applyCatch s .usernameExists =
      { s with doc := .saga i (some sc) (some .usernameExists) r } :=
    applyCatch_saga s i (some sc) e r .usernameExists hd
  have st3 : rollbackUser
      { s with doc := .saga i (some sc) (some .usernameExists) r } = .ok
      { s with
        table := { s.table with profiles := fun k =>
          (if (k = profileKey sc.userId) then none else s.table.profiles k) },
        doc := .saga i (some sc) (some .usernameExists) (some ()) } :=
    rollbackUser_ok _ i sc (some .usernameExists) r rfl
  have hrun : run (fuel + 1 + 1 + 1) .createCognitoUser s = (.failedState, { s with
      table := { s.table with profiles := fun k =>
        (if (k = profileKey sc.userId) then none else s.table.profiles k) },
      doc := .saga i (some sc) (some .usernameExists) (some ()) }) := by
    rw [run_succ_createCognitoUser, st1]
    show run (fuel + 1 + 1) .rollbackUser (applyCatch s .usernameExists) = _
    rw [st2, run_succ_rollbackUser, st3]
    rfl
  rw [hrun]
  refine ⟨rfl, rfl, rfl, ?_, rfl⟩
  simp

/-- Witness for C4 at `takenSys`: username 42 is taken, so the run ends at
the `Fail` terminal with the profile item deleted and the counter still 42. -/
theorem duplicateIdentity_rollback_witness :
    takenSys.cognito (allocCtx 41).userId =
      some ⟨Nat.repr 42, "other.example.com", "true"⟩ ∧
    observe (run 3 .createCognitoUser takenSys) = .failure none ∧
    (run 3 .createCognitoUser takenSys).2.table.lastId = some 42 ∧
    (run 3 .createCognitoUser takenSys).2.table.profiles
      (profileKey (allocCtx 41).userId) = none := by
  have htaken : takenSys.cognito (allocCtx 41).userId =
      some ⟨Nat.repr 42, "other.example.com", "true"⟩ := by
    simp [takenSys, allocCtx]
  have hc := duplicateIdentity_rollback takenSys sampleInput (allocCtx 41)
    none none ⟨Nat.repr 42, "other.example.com", "true"⟩ 0 rfl htaken
  exact ⟨htaken, hc.2.1, hc.2.2.1, hc.2.2.2.1⟩

/-- Counterexample to claim C5 at `movedSys` (counter 50, context allocated
from 41): the Counter Corrector's conditional update is rejected, the fault
is not caught anywhere (there is no catch on `CorrectLastId`), and the
execution aborts fatally with the system unchanged — control does *not*
proceed to re-allocation.  The counter itself is indeed untouched. -/
theorem correctLastId_stale_counterexample :
    movedSys.table.lastId ≠ some 41 ∧
    correctLastId movedSys = .error .conditionalCheckFailed ∧
    catchTarget .correctLastId .conditionalCheckFailed = none ∧
    run 5 .correctLastId movedSys = (.fatal .conditionalCheckFailed, movedSys) ∧
    (run 5 .correctLastId movedSys).2.table.lastId = some 50 := by
  have hcas : movedSys.table.lastId ≠ some 41 := by decide
  have hstep : correctLastId movedSys = .error .conditionalCheckFailed :=
    correctLastId_conditionFailed movedSys sampleInput (allocCtx 41) none none
      41 42 rfl (toNat?_repr 41) (toNat?_repr 42) hcas
  have hrun : run 5 .correctLastId movedSys =
      (.fatal .conditionalCheckFailed, movedSys) := by
    have e1 : run 5 .correctLastId movedSys = run (4 + 1) .correctLastId movedSys := rfl
    rw [e1, run_succ_correctLastId, hstep]
    rfl
  refine ⟨hcas, hstep, rfl, hrun, ?_⟩
  rw [hrun]
  rfl

/-- Claim C5 amended: invoking the Counter Corrector when the counter no
longer equals `previousUserId` has no effect on the counter, but its own
conditional failure is *not* ignored: the fault is uncaught and the saga
aborts fatally instead of proceeding to re-allocation.  Control proceeds to
the Sequence Allocator only when the corrector's condition holds (counter
still equal to `previousUserId`). -/
theorem correctLastId_condition_behaviour (s : Sys) (i : UserInput)
    (sc : SeqContext) (e : Option Fault) (r : Option Unit)
    (prev uid : Nat) (fuel : Nat)
    (hd : s.doc = .saga i (some sc) e r)
    (hprev : sc.previousUserId.toNat? = some prev)
    (huid : sc.userId.toNat? = some uid) :
    (s.table.lastId ≠ some prev →
      run (fuel + 1) .correctLastId s = (.fatal .conditionalCheckFailed, s)) ∧
    (s.table.lastId = some prev →
      correctLastId s = .ok { s with
        table := { s.table with lastId := some uid },
        doc := .saga i (some sc) e (some ()) } ∧
      run (fuel + 1) .correctLastId s = run fuel .findLastId { s with
        table := { s.table with lastId := some uid },
        doc := .saga i (some sc) e (some ()) }) := by
  constructor
  · intro hcas
    rw [run_succ_correctLastId,
      correctLastId_conditionFailed s i sc e r prev uid hd hprev huid hcas]
    rfl
  · intro hcas
    have hok := correctLastId_ok s i sc e r prev uid hd hprev huid hcas
    refine ⟨hok, ?_⟩
    rw [run_succ_correctLastId, hok]

/-- Witness for amended C5: at `movedSys` the stale corrector aborts the
run fatally; at `sampleSys` (counter still 41) the corrector succeeds and
control continues at the allocator. -/
theorem correctLastId_condition_behaviour_witness :
    movedSys.table.lastId ≠ some 41 ∧
    run 1 .correctLastId movedSys = (.fatal .conditionalCheckFailed, movedSys) ∧
    sampleSys.table.lastId = some 41 ∧
    run 1 .correctLastId sampleSys = run 0 .findLastId { sampleSys with
      table := { sampleSys.table with lastId := some 42 },
      doc := .saga sampleInput (some (allocCtx 41)) none (some ()) } := by
  have h1 := correctLastId_condition_behaviour movedSys sampleInput
    (allocCtx 41) none none 41 42 0 rfl (toNat?_repr 41) (toNat?_repr 42)
  have h2 := correctLastId_condition_behaviour sampleSys sampleInput
    (allocCtx 41) none none 41 42 0 rfl (toNat?_repr 41) (toNat?_repr 42)
  refine ⟨by decide, h1.1 (by decide), rfl, (h2.2 rfl).2⟩

/-- Claim C6: every invocation observably ends in success — carrying the
allocated user id as the username of the returned account, equal to the
decimal form of the final counter value — or in failure with an optional
reason. -/
theorem workflow_outcome (fuel : Nat) (i : UserInput) (t : Table)
    (cg : String → Option CognitoAccount) :
    (∃ a p, observe (run fuel .findLastId ⟨t, cg, initialDoc i⟩) =
        .success (.cognitoResult a) ∧ a.username = Nat.repr (p + 1) ∧
        (run fuel .findLastId ⟨t, cg, initialDoc i⟩).2.table.lastId =
          some (p + 1)) ∨
    (∃ rs, observe (run fuel .findLastId ⟨t, cg, initialDoc i⟩) =
        .failure rs) := by
  cases hres : run fuel .findLastId ⟨t, cg, initialDoc i⟩ with
  | mk res s2 =>
    cases res with
    | succeeded =>
      obtain ⟨a, p, pr, hdoc, hu, hl, _, _⟩ :=
        run_succeeded_post fuel .findLastId _ s2 trivial hres
      left
      refine ⟨a, p, ?_, hu, hl⟩
      show Outcome.success s2.doc = _
      rw [hdoc]
    | failedState =>
      right
      exact ⟨none, rfl⟩
    | fatal f =>
      right
      exact ⟨some f, rfl⟩
    | outOfFuel =>
      right
      exact ⟨some .statesTimeout, rfl⟩

/-- An edge of the implemented state machine: a `.next` successor or a
catch route for some fault. -/
abbrev codeEdge (m n : Node) : Prop :=
  nextNode m = some n ∨ ∃ f, catchTarget m f = some n

/-- The step graph claimed by the spec: the happy path
Allocate (`FindLastId`) → Write (`CreateDynamoDBUser`) →
Register (`CreateCognitoUser`) → Success (`Pass`), plus the two compensation
chains Write → `CorrectLastId` → Allocate and
Register → `RollbackUser` → Failure (`Fail`). -/
def specEdges : List (Node × Node) :=
  [(.findLastId, .createDynamoDBUser),
   (.createDynamoDBUser, .createCognitoUser),
   (.createCognitoUser, .passNode),
   (.createDynamoDBUser, .correctLastId),
   (.correctLastId, .findLastId),
   (.createCognitoUser, .rollbackUser),
   (.rollbackUser, .failNode)]

/-- Claim C7: the implemented transition structure has exactly the edges of
the specified step graph — the happy path plus the two compensation chains
and nothing else — and precisely the `Pass` and `Fail` states are terminal. -/
theorem step_graph_exact :
    (∀ m n : Node, codeEdge m n ↔ (m, n) ∈ specEdges) ∧
    (∀ m : Node, nextNode m = none ↔ (m = .passNode ∨ m = .failNode)) := by
  constructor
  · decide
  · decide

theorem createDynamoDBUser_counter_effect (s s2 : Sys) (i : UserInput)
    (sc : SeqContext) (e : Option Fault) (r : Option Unit) (prev uid : Nat)
    (hd : s.doc = .saga i (some sc) e r)
    (hprev : sc.previousUserId.toNat? = some prev)
    (huid : sc.userId.toNat? = some uid)
    (h : createDynamoDBUser s = .ok s2) :
    s.table.lastId = some prev ∧ s2.table.lastId = some uid := by
  unfold createDynamoDBUser at h
  rw [hd] at h
  simp only [StateDoc.ctx, StateDoc.callerInput, hprev, huid] at h
  split at h
  next hcond =>
    injection h with he
    subst he
    exact ⟨hcond.2, rfl⟩
  next => cases h

/-- Claim C8: the Counter Corrector performs exactly the counter half of the
failed write transaction — its `updateItem` parameters (key, condition,
update expression, value paths) coincide with the `Update` element inside
the `TransactItems` of the Profile Writer, and semantically both apply the
same conditional update: each succeeds only when the counter still equals
the parsed `previousUserId` and then sets it to the parsed `userId`. -/
theorem corrector_matches_write_counter_update :
    correctLastIdUpdate = createDynamoDBUserUpdate ∧
    (∀ (s : Sys) (i : UserInput) (sc : SeqContext) (e : Option Fault)
      (r : Option Unit) (prev uid : Nat), s.doc = .saga i (some sc) e r →
      sc.previousUserId.toNat? = some prev → sc.userId.toNat? = some uid →
      ((∃ s1, correctLastId s = .ok s1 ∧ s1.table.lastId = some uid ∧
          s1.table.profiles = s.table.profiles) ↔
        s.table.lastId = some prev)) ∧
    (∀ (s s2 : Sys) (i : UserInput) (sc : SeqContext) (e : Option Fault)
      (r : Option Unit) (prev uid : Nat), s.doc = .saga i (some sc) e r →
      sc.previousUserId.toNat? = some prev → sc.userId.toNat? = some uid →
      createDynamoDBUser s = .ok s2 →
      s.table.lastId = some prev ∧ s2.table.lastId = some uid) := by
  refine ⟨rfl, ?_, ?_⟩
  · intro s i sc e r prev uid hd hprev huid
    constructor
    · rintro ⟨s1, h1, -, -⟩
      by_cases hcas : s.table.lastId = some prev
      · exact hcas
      · rw [correctLastId_conditionFailed s i sc e r prev uid hd hprev huid
          hcas] at h1
        cases h1
    · intro hcas
      exact ⟨_, correctLastId_ok s i sc e r prev uid hd hprev huid hcas,
        rfl, rfl⟩
  · intro s s2 i sc e r prev uid hd hprev huid h
    exact createDynamoDBUser_counter_effect s s2 i sc e r prev uid hd hprev
      huid h

/-- Witness for C8: the parameter trees coincide, and on `sampleSys` the
write applies the very counter transition the corrector would. -/
theorem corrector_matches_write_counter_update_witness :
    correctLastIdUpdate = createDynamoDBUserUpdate ∧
    sampleSys.table.lastId = some 41 ∧ writeOut.table.lastId = some 42 := by
  have hok : createDynamoDBUser sampleSys = .ok writeOut :=
    createDynamoDBUser_ok sampleSys sampleInput 41 none none rfl rfl rfl
  have h := corrector_matches_write_counter_update
  have h3 := h.2.2 sampleSys writeOut sampleInput (allocCtx 41) none none
    41 42 rfl (toNat?_repr 41) (toNat?_repr 42) hok
  exact ⟨h.1, h3.1, h3.2⟩

/-- Claim C9: every successful registration creates the external account
with username equal to the run's allocated `userId`, the email attribute
equal to the caller-supplied `emailAddress`, and `email_verified` set to the
literal `true` unconditionally; no other account is touched and the table is
untouched.  The task's parameter sources are also stated. -/
theorem registrar_parameters (s s1 : Sys) (h : createCognitoUser s = .ok s1) :
    ∃ sc i, s.doc.ctx = some sc ∧ s.doc.callerInput = some i ∧
      s.cognito sc.userId = none ∧
      s1.cognito sc.userId = some ⟨sc.userId, i.emailAddress, "true"⟩ ∧
      s1.doc = .cognitoResult ⟨sc.userId, i.emailAddress, "true"⟩ ∧
      (∀ u, u ≠ sc.userId → s1.cognito u = s.cognito u) ∧
      s1.table = s.table ∧
      createCognitoUserCall.usernamePath = "$.context.userId" ∧
      createCognitoUserCall.emailValuePath = "$.emailAddress" ∧
      createCognitoUserCall.emailVerifiedValue = "true" := by
  cases hdoc : s.doc with
  | cognitoResult u =>
    unfold createCognitoUser at h
    rw [hdoc] at h
    simp only [StateDoc.ctx, StateDoc.callerInput] at h
    cases h
  | saga i c e r =>
    cases c with
    | none =>
      unfold createCognitoUser at h
      rw [hdoc] at h
      simp only [StateDoc.ctx, StateDoc.callerInput] at h
      cases h
    | some sc =>
      cases hcg : s.cognito sc.userId with
      | some a =>
        rw [createCognitoUser_exists s i sc e r a hdoc hcg] at h
        cases h
      | none =>
        rw [createCognitoUser_ok s i sc e r hdoc hcg] at h
        injection h with he
        subst he
        refine ⟨sc, i, rfl, rfl, hcg, by simp, rfl, ?_,
          rfl, rfl, rfl, rfl⟩
        intro u hu
        simp [hu]

/-- Witness for C9 at `sampleSys`: user 42 is registered with the caller's
email and a forced-true verification attribute. -/
theorem registrar_parameters_witness :
    createCognitoUser sampleSys = .ok cogOut ∧
    cogOut.cognito (Nat.repr 42) =
      some ⟨Nat.repr 42, "ada.example.com", "true"⟩ ∧
    cogOut.doc = .cognitoResult ⟨Nat.repr 42, "ada.example.com", "true"⟩ := by
  have hok : createCognitoUser sampleSys = .ok cogOut :=
    createCognitoUser_ok sampleSys sampleInput (allocCtx 41) none none rfl rfl
  obtain ⟨sc, i2, hc, hi, hfree, hacct, hdoc, _⟩ :=
    registrar_parameters sampleSys cogOut hok
  have hsc : sc = allocCtx 41 := by
    have h3 : some (allocCtx 41) = some sc := hc
    injection h3 with h3e
    exact h3e.symm
  have hi2 : i2 = sampleInput := by
    have h4 : some sampleInput = some i2 := hi
    injection h4 with h4e
    exact h4e.symm
  subst hsc
  subst hi2
  exact ⟨hok, hacct, hdoc⟩

/-- Claim C10: both catches record the caught fault additively at `$.error`:
the rest of the document (caller input and allocation context), the table
and the user pool are untouched, so a compensator observes exactly the
`userId`, `previousUserId` and profile fields the failed step used; both
catch configurations name `$.error` as their result path. -/
theorem catch_frame (s : Sys) (f : Fault) (i : UserInput)
    (c : Option SeqContext) (e : Option Fault) (r : Option Unit)
    (hd : s.doc = .saga i c e r) :
    applyCatch s f = { s with doc := .saga i c (some f) r } ∧
    (applyCatch s f).doc.ctx = s.doc.ctx ∧
    (applyCatch s f).doc.callerInput = s.doc.callerInput ∧
    (applyCatch s f).table = s.table ∧
    (applyCatch s f).cognito = s.cognito ∧
    createDynamoDBUserCatch.resultPath = "$.error" ∧
    createCognitoUserCatch.resultPath = "$.error" := by
  have ha := applyCatch_saga s i c e r f hd
  rw [ha]
  refine ⟨rfl, ?_, ?_, rfl, rfl, rfl, rfl⟩
  · rw [hd]
    rfl
  · rw [hd]
    rfl

/-- Witness for C10 at `sampleSys` with the transaction-cancellation fault:
the error lands at the error member, everything else is unchanged. -/
theorem catch_frame_witness :
    applyCatch sampleSys .transactionCanceled = { sampleSys with
      doc := .saga sampleInput (some (allocCtx 41))
        (some .transactionCanceled) none } ∧
    (applyCatch sampleSys .transactionCanceled).doc.ctx = sampleSys.doc.ctx ∧
    createDynamoDBUserCatch.resultPath = "$.error" := by
  have h := catch_frame sampleSys .transactionCanceled sampleInput
    (some (allocCtx 41)) none none rfl
  exact ⟨h.1, h.2.1, h.2.2.2.2.2.1⟩
